import Mathlib

/-!
Shallow embedding of the Race/Lane state-and-timing core of the
PCLapCounterWithArduino slot-car race controller
(sketch/PCLapCounterHW.ino), together with theorems checking the
specification's claims about it.

Modelling conventions:
* Arduino `unsigned long` millisecond values are natural numbers reduced
  modulo 2^32; the wrap-around subtraction and addition of the source are
  the functions sub32 and add32 below.
* Arduino `long` (the lap counter) is modelled as Int.
* digitalWrite targets (per-lane relay pin, red/green racer-stand LEDs,
  global LEDs) are modelled as Bool fields holding the last written level.
* Methods that mutate a C++ object become functions returning the updated
  record; methods that both mutate and return a value return a pair.
-/

/-- 2^32, the modulus of Arduino unsigned long arithmetic. -/
def U32 : Nat := 4294967296

/-- Wrap-around 32-bit subtraction a - b on Nat representatives. -/
def sub32 (a b : Nat) : Nat := (a % U32 + U32 - b % U32) % U32

/-- Wrap-around 32-bit addition. -/
def add32 (a b : Nat) : Nat := (a + b) % U32

/-- sketch/PCLapCounterHW.ino line 1185: lane protection (blackout) window in ms. -/
def laneProtectionTime : Nat := 9000

/-- Penalty delay lookup table delayMillis[] (lines 1200-1210), indexed 0..7. -/
def delayMillis : List Nat := [0, 1000, 2000, 3000, 4000, 5000, 6000, 7000]

/-- Race lifecycle states; the source encodes them as the chars
    RACE_INIT '0', RACE_STARTED '1', RACE_FINISHED '2', RACE_PAUSED '3'. -/
inductive RaceState where
  | INIT
  | STARTED
  | FINISHED
  | PAUSED
  deriving DecidableEq, Repr

/-- Class Race (lines 1442-1578): race lifecycle plus the shared
    false-start penalty stopwatch. -/
structure Race where
  state : RaceState
  previousState : RaceState
  falseStartEnabled : Bool
  falseStartDetected : Bool
  startingLights : Bool
  penaltyBeginMillis : Nat
  penaltyServedMillis : Nat
  penaltyTimeMillis : Nat
  deriving DecidableEq, Repr

/-- Race() constructor (lines 1468-1477): boot state is FINISHED. -/
def Race.new : Race :=
  { state := RaceState.FINISHED
    previousState := RaceState.FINISHED
    falseStartEnabled := false
    falseStartDetected := false
    startingLights := false
    penaltyBeginMillis := 0
    penaltyServedMillis := 0
    penaltyTimeMillis := 0 }

/-- Race::penaltyStart (lines 1452-1460); now is the value of millis(). -/
def Race.penaltyStart (now : Nat) (r : Race) : Race :=
  if r.previousState = RaceState.INIT then
    { r with penaltyBeginMillis := now % U32 }
  else if r.previousState = RaceState.PAUSED then
    { r with penaltyBeginMillis :=
        sub32 (add32 r.penaltyBeginMillis (sub32 now r.penaltyBeginMillis))
              r.penaltyServedMillis }
  else
    r

/-- Race::isStarted (lines 1534-1536). -/
def Race.isStarted (r : Race) : Bool := r.state = RaceState.STARTED

/-- Race::isPaused (lines 1537-1539). -/
def Race.isPaused (r : Race) : Bool := r.state = RaceState.PAUSED

/-- Race::isFinished (lines 1540-1542). -/
def Race.isFinished (r : Race) : Bool := r.state = RaceState.FINISHED

/-- Race::isInit (lines 1543-1545). -/
def Race.isInit (r : Race) : Bool := r.state = RaceState.INIT

/-- Race::getPenaltyServedMillis (lines 1461-1466): a stateful getter, it
    refreshes penaltyServedMillis from the clock while the race is started
    and a false start has been detected, and otherwise returns the frozen
    value. Returns (value, updated race). -/
def Race.getPenaltyServedMillis (now : Nat) (r : Race) : Nat × Race :=
  if r.falseStartDetected && r.isStarted then
    let v := sub32 now r.penaltyBeginMillis
    (v, { r with penaltyServedMillis := v })
  else
    (r.penaltyServedMillis, r)

/-- Race::isFalseStartPenaltyServed (lines 1525-1527): strict comparison
    getPenaltyServedMillis() > penaltyTimeMillis. -/
def Race.isFalseStartPenaltyServed (now : Nat) (r : Race) : Bool × Race :=
  let p := r.getPenaltyServedMillis now
  (decide (p.1 > r.penaltyTimeMillis), p.2)

/-- Race::initFalseStart (lines 1513-1521); mode is the 4-bit switch value. -/
def Race.initFalseStart (mode : Nat) (r : Race) : Race :=
  let r := { r with falseStartEnabled := decide (mode > 7) }
  if r.falseStartEnabled then
    { r with falseStartDetected := false
             penaltyBeginMillis := 4294967295
             penaltyServedMillis := 0
             penaltyTimeMillis := (delayMillis.getD (mode - 8) 0) }
  else
    r

/-- Race::setFalseStartDetected (lines 1522-1524). -/
def Race.setFalseStartDetected (r : Race) : Race :=
  { r with falseStartDetected := true }

/-- Race::isFalseStartDetected (lines 1528-1530). -/
def Race.isFalseStartDetected (r : Race) : Bool := r.falseStartDetected

/-- Race::isFalseStartEnabled (lines 1531-1533). -/
def Race.isFalseStartEnabled (r : Race) : Bool := r.falseStartEnabled

/-- Race::fromState (lines 1546-1548). -/
def Race.fromState (from_ : RaceState) (r : Race) : Bool :=
  from_ = r.previousState

/-- Race::init (lines 1549-1552). -/
def Race.init (r : Race) : Race :=
  { r with previousState := r.state, state := RaceState.INIT }

/-- Race::start (lines 1553-1557): records previousState, enters STARTED,
    then runs the penalty stopwatch start/resume arithmetic. -/
def Race.start (now : Nat) (r : Race) : Race :=
  Race.penaltyStart now { r with previousState := r.state, state := RaceState.STARTED }

/-- Race::pause (lines 1558-1561). -/
def Race.pause (r : Race) : Race :=
  { r with previousState := r.state, state := RaceState.PAUSED }

/-- Race::finish (lines 1562-1565). -/
def Race.finish (r : Race) : Race :=
  { r with previousState := r.state, state := RaceState.FINISHED }

/-- Race::startingLightsOn (lines 1566-1568). -/
def Race.startingLightsOn (r : Race) : Race := { r with startingLights := true }

/-- Race::startingLightsOff (lines 1569-1571). -/
def Race.startingLightsOff (r : Race) : Race := { r with startingLights := false }

/-- Race::areStartingLightsOff (lines 1572-1574). -/
def Race.areStartingLightsOff (r : Race) : Bool := r.startingLights = false

/-- Class Lane (lines 1588-1667).  The volatile member now is written at
    the top of lapDetected and only read inside the same call, so it is
    modelled as a local of lapDetected.  pin, red, green hold the last
    level written to the lane relay pin and the red/green racer-stand LED
    pins. -/
structure Lane where
  start : Nat
  finish : Nat
  count : Int
  reported : Bool
  lane : Nat
  falseStart : Bool
  pin : Bool
  red : Bool
  green : Bool
  deriving DecidableEq, Repr

/-- Lane(byte setLane) constructor (lines 1601-1611); the output pins power
    up LOW on an AVR, matching bool false. -/
def Lane.new (setLane : Nat) : Lane :=
  { start := 0
    finish := 0
    count := -1
    reported := true
    lane := setLane - 1
    falseStart := false
    pin := false
    red := false
    green := false }

/-- Lane::lapDetected (lines 1612-1621), the ISR body: pulses inside the
    protection window measured from the previous finish are discarded,
    otherwise the lap timestamps shift and the counter increments. -/
def Lane.lapDetected (now : Nat) (l : Lane) : Lane :=
  let nw := now % U32
  if sub32 nw l.finish < laneProtectionTime then
    l
  else
    { l with start := l.finish, finish := nw, count := l.count + 1, reported := false }

/-- Lane::reset (lines 1622-1626): touches only reported, falseStart, count. -/
def Lane.reset (l : Lane) : Lane :=
  { l with reported := true, falseStart := false, count := -1 }

/-- Lane::powerOn (lines 1649-1658): guarded by the lane's own false-start
    latch; while latched it leaves the relay pin alone and only drives the
    stand LED red. -/
def Lane.powerOn (l : Lane) : Lane :=
  if !l.falseStart then
    { l with pin := true, red := false, green := true }
  else
    { l with red := true, green := false }

/-- Lane::powerOff (lines 1659-1663). -/
def Lane.powerOff (l : Lane) : Lane :=
  { l with pin := false, red := true, green := false }

/-- Result of Lane::reportLap: updated lane, updated race, and the lap
    records (lane index, lap milliseconds) printed to the host. -/
structure ReportResult where
  lane : Lane
  race : Race
  out : List (Nat × Nat)
  deriving DecidableEq, Repr

/-- Lane::reportLap (lines 1627-1648): emit a pending lap record once, then
    run false-start latching (race in INIT, lane unlatched, count == 0) and
    penalty-served power restoration.  The && in the source short-circuits,
    so isFalseStartPenaltyServed (which refreshes penaltyServedMillis) is
    evaluated only when the lane is latched. -/
def Lane.reportLap (now : Nat) (l : Lane) (r : Race) : ReportResult :=
  let p : Lane × List (Nat × Nat) :=
    if !l.reported then
      ({ l with reported := true }, [(l.lane, sub32 l.finish l.start)])
    else
      (l, [])
  let l := p.1
  let out := p.2
  if r.isFalseStartEnabled then
    let q : Lane × Race :=
      if r.isInit && !l.falseStart && decide (l.count = 0) then
        ({ (Lane.powerOff l) with falseStart := true }, r.setFalseStartDetected)
      else
        (l, r)
    let l := q.1
    let r := q.2
    if l.falseStart then
      let s := r.isFalseStartPenaltyServed now
      if s.1 then
        { lane := Lane.powerOn { l with falseStart := false }, race := s.2, out := out }
      else
        { lane := l, race := s.2, out := out }
    else
      { lane := l, race := r, out := out }
  else
    { lane := l, race := r, out := out }

/-- The controller-level state the RC0 (race setup) dispatch touches: the
    global race, the six lanes, and the global LEDs written by
    setPowerOff/setLEDsPowerOff (lines 1964-1968 and 1984-1993).  The five
    start/finish LEDs and the global power LED are levels of distinct pins;
    the per-lane relay and stand-LED pins live inside each Lane. -/
structure Board where
  race : Race
  lanes : List Lane
  ledPowerAll : Bool
  ledGO : Bool
  ledSTOP : Bool
  sf1 : Bool
  sf2 : Bool
  sf3 : Bool
  sf4 : Bool
  sf5 : Bool
  deriving DecidableEq, Repr

/-- setPowerOff (lines 1964-1968): ledPowerAll off, all lane relays off
    (allRelaysOff writes LOW to the same relay pins Lane::powerOff does),
    then setLEDsPowerOff (lines 1984-1993): the five start/finish LEDs on,
    GO off, STOP on, and every racer stand red (red HIGH, green LOW). -/
def setPowerOff (b : Board) : Board :=
  { b with ledPowerAll := false
           lanes := b.lanes.map (fun l => { l with pin := false, red := true, green := false })
           ledGO := false
           ledSTOP := true
           sf1 := true, sf2 := true, sf3 := true, sf4 := true, sf5 := true }

/-- The 4-bit mode nibble read in FalseStart::init (lines 1751-1754):
    !digitalRead(FSbit_3) << 3 | ... | !digitalRead(FSbit_0).  The inputs
    are pulled up and active-low, so a LOW pin contributes a 1 bit; the
    bitwise ORs combine disjoint bits, hence the sum below. -/
def readModeNibble (b3 b2 b1 b0 : Bool) : Nat :=
  (cond b3 0 8) + (cond b2 0 4) + (cond b1 0 2) + (cond b0 0 1)

/-- FalseStart::init (lines 1749-1757): read the mode nibble, configure the
    race's false-start parameters, then reset every lane. -/
def FalseStart.init (b3 b2 b1 b0 : Bool) (b : Board) : Board :=
  { b with race := b.race.initFalseStart (readModeNibble b3 b2 b1 b0)
           lanes := b.lanes.map Lane.reset }

/-- The RC0 (Race Clock - Race Setup) branch of loop() (lines 2138-2143):
    if the race came from FINISHED, power everything down, then re-enter
    INIT and run the false-start configurator. -/
def rc0Setup (b3 b2 b1 b0 : Bool) (b : Board) : Board :=
  let b := if b.race.fromState RaceState.FINISHED then setPowerOff b else b
  let b := { b with race := b.race.init }
  FalseStart.init b3 b2 b1 b0 b

/-- C6: in wrap-around 32-bit arithmetic, the paused-to-started rebase
    assignment penaltyBeginMillis := penaltyBeginMillis +
    (now - penaltyBeginMillis) - penaltyServedMillis performed by
    Race::penaltyStart is the same as penaltyBeginMillis :=
    now - penaltyServedMillis, for every value of the three quantities
    (the sentinel 0xFFFFFFFF included). -/
theorem c6_paused_rebase_equiv (r : Race) (now : Nat)
    (h : r.previousState = RaceState.PAUSED) :
    (r.penaltyStart now).penaltyBeginMillis = sub32 now r.penaltyServedMillis := by
  simp [Race.penaltyStart, h, sub32, add32, U32]
  omega

/-- C6 witness: the rebase equivalence evaluated at the sentinel
    penaltyBeginMillis = 0xFFFFFFFF, penaltyServedMillis = 500,
    now = 10000. -/
theorem c6_paused_rebase_equiv_witness :
    ({ Race.new with previousState := RaceState.PAUSED,
                     penaltyBeginMillis := 4294967295,
                     penaltyServedMillis := 500 } : Race).previousState = RaceState.PAUSED
    ∧ (({ Race.new with previousState := RaceState.PAUSED,
                        penaltyBeginMillis := 4294967295,
                        penaltyServedMillis := 500 } : Race).penaltyStart 10000).penaltyBeginMillis
        = sub32 10000 500 :=
  ⟨rfl, c6_paused_rebase_equiv _ 10000 rfl⟩

/-- C7: initFalseStart(mode) enables false start exactly for mode > 7; when
    enabled it clears the race fuse, sets the far-future sentinel begin
    value, zeroes the served time and picks penaltyTimeMillis =
    1000 * (mode - 8) from the delayMillis table; when disabled it changes
    nothing else; mode 11 gives enabled with a 3000 ms penalty. -/
theorem c7_init_false_start (r : Race) (mode : Nat) (h : mode ≤ 15) :
    (r.initFalseStart mode).falseStartEnabled = decide (mode > 7)
    ∧ (7 < mode →
        (r.initFalseStart mode).falseStartDetected = false
        ∧ (r.initFalseStart mode).penaltyBeginMillis = 4294967295
        ∧ (r.initFalseStart mode).penaltyServedMillis = 0
        ∧ (r.initFalseStart mode).penaltyTimeMillis = 1000 * (mode - 8))
    ∧ (mode ≤ 7 →
        (r.initFalseStart mode) = { r with falseStartEnabled := false })
    ∧ (r.initFalseStart 11).falseStartEnabled = true
    ∧ (r.initFalseStart 11).penaltyTimeMillis = 3000 := by
  refine ⟨?_, ?_, ?_, ?_, ?_⟩
  · simp [Race.initFalseStart]
    split <;> rfl
  · intro h8
    have hd : decide (mode > 7) = true := by simpa using h8
    simp only [Race.initFalseStart, hd, if_true]
    refine ⟨trivial, trivial, trivial, ?_⟩
    interval_cases mode <;> simp [delayMillis]
  · intro h7
    have hd : decide (mode > 7) = false := by simpa using Nat.not_lt.mpr h7
    simp [Race.initFalseStart, hd]
  · simp [Race.initFalseStart]
  · simp [Race.initFalseStart, delayMillis]

/-- C7 witness: initFalseStart at mode 11 on the boot race. -/
theorem c7_init_false_start_witness :
    (11 : Nat) ≤ 15
    ∧ (Race.new.initFalseStart 11).falseStartEnabled = decide ((11 : Nat) > 7) :=
  ⟨by decide, (c7_init_false_start Race.new 11 (by decide)).1⟩

/-- C8: the race boots in FINISHED; init/start/pause/finish each record
    previousState := state before setting the new state; from boot,
    init() then start() yields STARTED with previousState = INIT, and a
    further pause() makes fromState(STARTED) true. -/
theorem c8_race_lifecycle :
    Race.new.state = RaceState.FINISHED
    ∧ Race.new.previousState = RaceState.FINISHED
    ∧ (∀ r : Race, (r.init).previousState = r.state ∧ (r.init).state = RaceState.INIT)
    ∧ (∀ (now : Nat) (r : Race),
        (r.start now).previousState = r.state ∧ (r.start now).state = RaceState.STARTED)
    ∧ (∀ r : Race, (r.pause).previousState = r.state ∧ (r.pause).state = RaceState.PAUSED)
    ∧ (∀ r : Race, (r.finish).previousState = r.state ∧ (r.finish).state = RaceState.FINISHED)
    ∧ (∀ now : Nat,
        ((Race.new.init).start now).state = RaceState.STARTED
        ∧ ((Race.new.init).start now).previousState = RaceState.INIT
        ∧ Race.fromState RaceState.STARTED (((Race.new.init).start now).pause) = true) := by
  refine ⟨rfl, rfl, fun r => ⟨rfl, rfl⟩, ?_, fun r => ⟨rfl, rfl⟩, fun r => ⟨rfl, rfl⟩, ?_⟩
  · intro now r
    simp only [Race.start, Race.penaltyStart]
    split <;> try split
    all_goals exact ⟨rfl, rfl⟩
  · intro now
    refine ⟨?_, ?_, ?_⟩
    · simp only [Race.start, Race.penaltyStart]
      split <;> try split
      all_goals rfl
    · simp only [Race.start, Race.penaltyStart]
      split <;> try split
      all_goals rfl
    · simp only [Race.start, Race.pause, Race.penaltyStart, Race.fromState]
      split <;> try split
      all_goals rfl

/-- C3: a pulse inside the protection window measured from the stored
    finish leaves the lane unchanged; an accepted pulse shifts the
    timestamps, increments the count and clears reported; if a pulse was
    accepted, a second pulse less than the window later is dropped with no
    state change, and in general two pulses less than the window apart
    increment the count by at most one. -/
theorem c3_protection_window (l : Lane) (n1 n2 : Nat) :
    (sub32 (n1 % U32) l.finish < laneProtectionTime → Lane.lapDetected n1 l = l)
    ∧ (¬ sub32 (n1 % U32) l.finish < laneProtectionTime →
        Lane.lapDetected n1 l =
          { l with start := l.finish, finish := n1 % U32,
                   count := l.count + 1, reported := false })
    ∧ (n1 ≤ n2 → n2 < n1 + laneProtectionTime → n2 < U32 →
        ¬ sub32 (n1 % U32) l.finish < laneProtectionTime →
        Lane.lapDetected n2 (Lane.lapDetected n1 l) = Lane.lapDetected n1 l)
    ∧ (n1 ≤ n2 → n2 < n1 + laneProtectionTime → n2 < U32 →
        (Lane.lapDetected n2 (Lane.lapDetected n1 l)).count ≤ l.count + 1) := by
  have hdisc : sub32 (n1 % U32) l.finish < laneProtectionTime →
      Lane.lapDetected n1 l = l := by
    intro h
    simp [Lane.lapDetected, h]
  have hacc : ¬ sub32 (n1 % U32) l.finish < laneProtectionTime →
      Lane.lapDetected n1 l =
        { l with start := l.finish, finish := n1 % U32,
                 count := l.count + 1, reported := false } := by
    intro h
    simp [Lane.lapDetected, h]
  have hsecond : n1 ≤ n2 → n2 < n1 + laneProtectionTime → n2 < U32 →
      ¬ sub32 (n1 % U32) l.finish < laneProtectionTime →
      Lane.lapDetected n2 (Lane.lapDetected n1 l) = Lane.lapDetected n1 l := by
    intro h12 hw h2u hfirst
    rw [hacc hfirst]
    have hcond : sub32 (n2 % U32) (n1 % U32) < laneProtectionTime := by
      simp only [sub32, laneProtectionTime, U32] at *
      omega
    simp [Lane.lapDetected, hcond]
  refine ⟨hdisc, hacc, hsecond, ?_⟩
  intro h12 hw h2u
  by_cases hfirst : sub32 (n1 % U32) l.finish < laneProtectionTime
  · rw [hdisc hfirst]
    by_cases hsec : sub32 (n2 % U32) l.finish < laneProtectionTime <;>
      simp [Lane.lapDetected, hsec]
  · rw [hsecond h12 hw h2u hfirst, hacc hfirst]

/-- C3 witness: on a fresh lane a pulse at 20000 ms is accepted, a second
    pulse at 22000 ms (2000 ms later, inside the 9000 ms window) is dropped
    with no state change. -/
theorem c3_protection_window_witness :
    ((20000 : Nat) ≤ 22000 ∧ (22000 : Nat) < 20000 + laneProtectionTime
      ∧ (22000 : Nat) < U32
      ∧ ¬ sub32 (20000 % U32) (Lane.new 1).finish < laneProtectionTime)
    ∧ Lane.lapDetected 22000 (Lane.lapDetected 20000 (Lane.new 1))
        = Lane.lapDetected 20000 (Lane.new 1) :=
  ⟨⟨by decide, by decide, by decide, by decide⟩,
    (c3_protection_window (Lane.new 1) 20000 22000).2.2.1
      (by decide) (by decide) (by decide) (by decide)⟩

/-- C5 counterexample: the claim says the very first pulse after boot is
    always accepted regardless of its wall-clock time; but on a freshly
    constructed lane (finish = 0) a pulse at millis() = 100 lies inside the
    9000 ms protection window measured from 0 and is discarded, leaving
    lapCount at -1. -/
theorem c5_first_pulse_counterexample :
    Lane.lapDetected 100 (Lane.new 1) = Lane.new 1
    ∧ (Lane.lapDetected 100 (Lane.new 1)).count = -1 := by
  constructor <;> decide

/-- C5 amended: on a freshly constructed lane the protection-window check
    runs against the initial finish = 0, so the first pulse after boot is
    accepted (lapCount becomes 0) exactly when it arrives at
    millis() ≥ laneProtectionTime; earlier first pulses are discarded. -/
theorem c5_first_pulse_after_boot (k now : Nat) (hu : now < U32) :
    (laneProtectionTime ≤ now →
        (Lane.lapDetected now (Lane.new k)).count = 0
        ∧ (Lane.lapDetected now (Lane.new k)).finish = now
        ∧ (Lane.lapDetected now (Lane.new k)).reported = false)
    ∧ (now < laneProtectionTime → Lane.lapDetected now (Lane.new k) = Lane.new k) := by
  constructor
  · intro h
    have hcond : ¬ sub32 now 0 < laneProtectionTime := by
      simp only [sub32, laneProtectionTime, U32] at *
      omega
    refine ⟨?_, ?_, ?_⟩ <;>
      simp [Lane.lapDetected, Lane.new, Nat.mod_eq_of_lt hu, hcond]
  · intro h
    have hcond : sub32 now 0 < laneProtectionTime := by
      simp only [sub32, laneProtectionTime, U32] at *
      omega
    simp [Lane.lapDetected, Lane.new, Nat.mod_eq_of_lt hu, hcond]

/-- C5 witness: a first pulse at exactly 9000 ms is accepted and sets the
    count to 0. -/
theorem c5_first_pulse_after_boot_witness :
    ((9000 : Nat) < U32 ∧ laneProtectionTime ≤ 9000)
    ∧ (Lane.lapDetected 9000 (Lane.new 1)).count = 0 :=
  ⟨⟨by decide, by decide⟩,
    ((c5_first_pulse_after_boot 1 9000 (by decide)).1 (by decide)).1⟩

/-- C9: with a pending lap (reported = false), reportLap emits exactly one
    lap record (lane index, finish - start) and marks the lane reported;
    an immediately repeated call with no intervening pulse emits nothing. -/
theorem c9_report_idempotent (l : Lane) (r : Race) (n1 n2 : Nat)
    (h : l.reported = false) :
    (Lane.reportLap n1 l r).out = [(l.lane, sub32 l.finish l.start)]
    ∧ (Lane.reportLap n1 l r).lane.reported = true
    ∧ (Lane.reportLap n2 (Lane.reportLap n1 l r).lane (Lane.reportLap n1 l r).race).out
        = [] := by
  have hout1 : (Lane.reportLap n1 l r).out = [(l.lane, sub32 l.finish l.start)] := by
    simp only [Lane.reportLap, h, Lane.powerOn, Lane.powerOff]
    repeat' split
    all_goals simp_all
  have hlane1 : (Lane.reportLap n1 l r).lane.reported = true := by
    simp only [Lane.reportLap, h, Lane.powerOn, Lane.powerOff]
    repeat' split
    all_goals simp_all
  have hsecond : ∀ (l2 : Lane) (r2 : Race), l2.reported = true →
      (Lane.reportLap n2 l2 r2).out = [] := by
    intro l2 r2 h2
    simp only [Lane.reportLap, h2, Lane.powerOn, Lane.powerOff]
    repeat' split
    all_goals simp_all
  exact ⟨hout1, hlane1, hsecond _ _ hlane1⟩

/-- C9 witness: a lane with a pending 1500 ms lap reports it once and the
    repeated call reports nothing. -/
theorem c9_report_idempotent_witness :
    ({ Lane.new 2 with start := 500, finish := 2000, count := 3,
                       reported := false } : Lane).reported = false
    ∧ (Lane.reportLap 5000
        ({ Lane.new 2 with start := 500, finish := 2000, count := 3,
                           reported := false }) Race.new).out
        = [(1, sub32 2000 500)] :=
  ⟨rfl,
    (c9_report_idempotent
      ({ Lane.new 2 with start := 500, finish := 2000, count := 3, reported := false })
      Race.new 5000 6000 rfl).1⟩

/-- C10: Lane::reset changes only reported, falseStart and count and leaves
    the timestamps and pins alone; consequently, right after a setup reset
    a pulse still inside the protection window of the previous race's last
    recorded finish is discarded even though the count was reset to -1. -/
theorem c10_reset_frame (l : Lane) (now : Nat)
    (h : sub32 (now % U32) l.finish < laneProtectionTime) :
    (l.reset.start = l.start ∧ l.reset.finish = l.finish ∧ l.reset.lane = l.lane
      ∧ l.reset.pin = l.pin ∧ l.reset.red = l.red ∧ l.reset.green = l.green
      ∧ l.reset.reported = true ∧ l.reset.falseStart = false ∧ l.reset.count = -1)
    ∧ Lane.lapDetected now l.reset = l.reset := by
  refine ⟨⟨rfl, rfl, rfl, rfl, rfl, rfl, rfl, rfl, rfl⟩, ?_⟩
  simp [Lane.lapDetected, Lane.reset, h]

/-- C10 witness: a lane whose last pulse of the previous race was at
    100000 ms, reset at setup, discards a first crossing at 105000 ms. -/
theorem c10_reset_frame_witness :
    sub32 (105000 % U32) ({ Lane.new 1 with finish := 100000 } : Lane).finish
        < laneProtectionTime
    ∧ Lane.lapDetected 105000 ({ Lane.new 1 with finish := 100000 } : Lane).reset
        = ({ Lane.new 1 with finish := 100000 } : Lane).reset :=
  ⟨by decide,
    (c10_reset_frame ({ Lane.new 1 with finish := 100000 }) 105000 (by decide)).2⟩

/-- C1: with false start enabled, a lane whose pulse brought its count to 0
    while the race is in INIT and that is not yet latched is, on the next
    reportLap, powered off, latched, and burns the race-wide fuse (the
    penalty being not yet served at that instant); afterwards, powerOn on a
    latched lane never touches the relay pin nor the latch and is the
    identity once the stand LED is red, reportLap keeps the latched lane
    powered off while the penalty is unserved, and once
    isFalseStartPenaltyServed turns true reportLap restores power and
    clears the latch. -/
theorem c1_false_start_latch (l : Lane) (r : Race) (now : Nat)
    (hEn : r.falseStartEnabled = true) (hInit : r.state = RaceState.INIT)
    (hNl : l.falseStart = false) (hC : l.count = 0)
    (hNs : r.penaltyServedMillis ≤ r.penaltyTimeMillis) :
    ((Lane.reportLap now l r).lane.pin = false
      ∧ (Lane.reportLap now l r).lane.falseStart = true
      ∧ (Lane.reportLap now l r).race.falseStartDetected = true)
    ∧ (∀ l2 : Lane, l2.falseStart = true →
        (l2.powerOn.pin = l2.pin ∧ l2.powerOn.falseStart = true
          ∧ (l2.red = true → l2.green = false → l2.powerOn = l2)))
    ∧ (∀ (l2 : Lane) (r2 : Race) (n2 : Nat), l2.falseStart = true →
        (r2.isFalseStartPenaltyServed n2).1 = false →
        ((Lane.reportLap n2 l2 r2).lane.pin = l2.pin
          ∧ (Lane.reportLap n2 l2 r2).lane.falseStart = true))
    ∧ (∀ (l2 : Lane) (r2 : Race) (n2 : Nat), l2.falseStart = true →
        r2.falseStartEnabled = true →
        (r2.isFalseStartPenaltyServed n2).1 = true →
        ((Lane.reportLap n2 l2 r2).lane.falseStart = false
          ∧ (Lane.reportLap n2 l2 r2).lane.pin = true)) := by
  refine ⟨?_, ?_, ?_, ?_⟩
  · have hNotServed :
        ∀ rr : Race, rr.state = RaceState.INIT →
          rr.penaltyServedMillis ≤ rr.penaltyTimeMillis →
          (rr.isFalseStartPenaltyServed now).1 = false := by
      intro rr hs hle
      simp [Race.isFalseStartPenaltyServed, Race.getPenaltyServedMillis,
            Race.isStarted, hs, Nat.not_lt.mpr hle]
    simp only [Lane.reportLap, Race.isFalseStartEnabled, hEn, if_true,
               Race.isInit, hInit, hNl, hC, Lane.powerOff, Lane.powerOn,
               Race.setFalseStartDetected]
    repeat' split
    all_goals simp_all [Race.isFalseStartPenaltyServed,
                        Race.getPenaltyServedMillis, Race.isStarted]
    all_goals omega
  · intro l2 h2
    refine ⟨?_, ?_, ?_⟩
    · simp [Lane.powerOn, h2]
    · simp [Lane.powerOn, h2]
    · intro hr hg
      cases l2
      simp_all [Lane.powerOn]
  · intro l2 r2 n2 h2 hserved
    simp only [Lane.reportLap, Lane.powerOn, Lane.powerOff, h2]
    repeat' split
    all_goals simp_all
  · intro l2 r2 n2 h2 hen2 hserved
    simp only [Lane.reportLap, Lane.powerOn, Lane.powerOff, h2,
               Race.isFalseStartEnabled, hen2, if_true]
    repeat' split
    all_goals simp_all

/-- C1 witness: a lane that just crossed to count 0 with the race in INIT
    (penalty 3000 ms, none served) is cut off and latched by reportLap. -/
theorem c1_false_start_latch_witness :
    (({ Race.new with state := RaceState.INIT, falseStartEnabled := true,
                      penaltyBeginMillis := 4294967295,
                      penaltyTimeMillis := 3000 } : Race).falseStartEnabled = true
      ∧ ({ Race.new with state := RaceState.INIT, falseStartEnabled := true,
                         penaltyBeginMillis := 4294967295,
                         penaltyTimeMillis := 3000 } : Race).state = RaceState.INIT
      ∧ ({ Lane.new 1 with finish := 10000, count := 0, reported := false,
                           pin := true, green := true } : Lane).falseStart = false
      ∧ ({ Lane.new 1 with finish := 10000, count := 0, reported := false,
                           pin := true, green := true } : Lane).count = 0
      ∧ ({ Race.new with state := RaceState.INIT, falseStartEnabled := true,
                         penaltyBeginMillis := 4294967295,
                         penaltyTimeMillis := 3000 } : Race).penaltyServedMillis
          ≤ ({ Race.new with state := RaceState.INIT, falseStartEnabled := true,
                             penaltyBeginMillis := 4294967295,
                             penaltyTimeMillis := 3000 } : Race).penaltyTimeMillis)
    ∧ ((Lane.reportLap 10050
          ({ Lane.new 1 with finish := 10000, count := 0, reported := false,
                             pin := true, green := true })
          ({ Race.new with state := RaceState.INIT, falseStartEnabled := true,
                           penaltyBeginMillis := 4294967295,
                           penaltyTimeMillis := 3000 })).lane.pin = false
        ∧ (Lane.reportLap 10050
            ({ Lane.new 1 with finish := 10000, count := 0, reported := false,
                               pin := true, green := true })
            ({ Race.new with state := RaceState.INIT, falseStartEnabled := true,
                             penaltyBeginMillis := 4294967295,
                             penaltyTimeMillis := 3000 })).lane.falseStart = true
        ∧ (Lane.reportLap 10050
            ({ Lane.new 1 with finish := 10000, count := 0, reported := false,
                               pin := true, green := true })
            ({ Race.new with state := RaceState.INIT, falseStartEnabled := true,
                             penaltyBeginMillis := 4294967295,
                             penaltyTimeMillis := 3000 })).race.falseStartDetected = true) :=
  ⟨⟨rfl, rfl, rfl, rfl, by decide⟩,
    (c1_false_start_latch
      ({ Lane.new 1 with finish := 10000, count := 0, reported := false,
                         pin := true, green := true })
      ({ Race.new with state := RaceState.INIT, falseStartEnabled := true,
                       penaltyBeginMillis := 4294967295,
                       penaltyTimeMillis := 3000 })
      10050 rfl rfl rfl rfl (by decide)).1⟩

/-- C2 scenario, step 0: false start already detected, penalty 2000 ms,
    race configured (INIT) and waiting for green. -/
def c2Race0 : Race :=
  { Race.new with state := RaceState.INIT, previousState := RaceState.FINISHED,
                  falseStartEnabled := true, falseStartDetected := true,
                  penaltyBeginMillis := 4294967295, penaltyServedMillis := 0,
                  penaltyTimeMillis := 2000 }

/-- C2 scenario: green light at wall-clock 0 (penaltyBeginMillis := 0). -/
def c2Race1 : Race := c2Race0.start 0

/-- C2 scenario: the main loop samples the penalty clock at wall-clock 500,
    freezing penaltyServedMillis at 500. -/
def c2Race2 : Race := (c2Race1.isFalseStartPenaltyServed 500).2

/-- C2 scenario: race paused at wall-clock 500. -/
def c2Race3 : Race := c2Race2.pause

/-- C2 scenario: race resumed at wall-clock 10000; the rebase arithmetic
    moves penaltyBeginMillis to 9500. -/
def c2Race4 : Race := c2Race3.start 10000

/-- C2 counterexample: the claim says isFalseStartPenaltyServed() becomes
    true at wall-clock 11500; but at 11500 the served total is exactly
    2000 and the source's strict comparison served > penaltyTimeMillis
    still returns false. -/
theorem c2_penalty_stopwatch_counterexample :
    (c2Race4.getPenaltyServedMillis 11500).1 = 2000
    ∧ (c2Race4.isFalseStartPenaltyServed 11500).1 = false := by
  constructor <;> decide

/-- C2 amended: after start at 0, freeze at served = 500, pause at 500 and
    resume at 10000, the penalty clock is rebased to 9500; the predicate is
    false while paused and before start, false at every instant up to
    11500 inclusive (when the served total first reaches 2000), and turns
    true at 11501 - not at 2000, and not before the served total strictly
    exceeds 2000. -/
theorem c2_penalty_stopwatch (t : Nat) (h0 : 10000 ≤ t) (h1 : t ≤ 11500) :
    c2Race2.penaltyServedMillis = 500
    ∧ c2Race4.penaltyBeginMillis = 9500
    ∧ (∀ s : Nat, (c2Race0.isFalseStartPenaltyServed s).1 = false)
    ∧ (∀ s : Nat, (c2Race3.isFalseStartPenaltyServed s).1 = false)
    ∧ (c2Race4.isFalseStartPenaltyServed t).1 = false
    ∧ (c2Race4.isFalseStartPenaltyServed 11501).1 = true := by
  have hr4 : c2Race4 =
      { state := RaceState.STARTED, previousState := RaceState.PAUSED,
        falseStartEnabled := true, falseStartDetected := true,
        startingLights := false, penaltyBeginMillis := 9500,
        penaltyServedMillis := 500, penaltyTimeMillis := 2000 } := by decide
  refine ⟨by decide, by decide, ?_, ?_, ?_, by decide⟩
  · intro s
    simp [c2Race0, Race.new, Race.isFalseStartPenaltyServed,
          Race.getPenaltyServedMillis, Race.isStarted]
  · intro s
    have hr3 : c2Race3 =
        { state := RaceState.PAUSED, previousState := RaceState.STARTED,
          falseStartEnabled := true, falseStartDetected := true,
          startingLights := false, penaltyBeginMillis := 0,
          penaltyServedMillis := 500, penaltyTimeMillis := 2000 } := by decide
    rw [hr3]
    simp [Race.isFalseStartPenaltyServed, Race.getPenaltyServedMillis,
          Race.isStarted]
  · rw [hr4]
    simp only [Race.isFalseStartPenaltyServed, Race.getPenaltyServedMillis,
               Race.isStarted]
    norm_num
    simp only [sub32, U32]
    omega

/-- C2 witness: at wall-clock 11000 (1500 ms served of 2000 ms) the penalty
    is still unserved; at 11501 it is served. -/
theorem c2_penalty_stopwatch_witness :
    ((10000 : Nat) ≤ 11000 ∧ (11000 : Nat) ≤ 11500)
    ∧ ((c2Race4.isFalseStartPenaltyServed 11000).1 = false
        ∧ (c2Race4.isFalseStartPenaltyServed 11501).1 = true) :=
  ⟨⟨by decide, by decide⟩,
    ⟨(c2_penalty_stopwatch 11000 (by decide) (by decide)).2.2.2.2.1,
      (c2_penalty_stopwatch 11000 (by decide) (by decide)).2.2.2.2.2⟩⟩

/-- C4: dispatching the RC0 setup token re-enters INIT (recording the state
    at dispatch time as previousState), re-reads the 4-bit mode switch into
    the race's false-start configuration, and resets every lane; and when
    the race's previousState was FINISHED every lane relay is additionally
    switched off (power cut before re-arming) together with the global
    power LED. -/
theorem c4_rc0_setup (b3 b2 b1 b0 : Bool) (b : Board)
    (hPrev : b.race.previousState = RaceState.FINISHED) :
    (rc0Setup b3 b2 b1 b0 b).race.state = RaceState.INIT
    ∧ (rc0Setup b3 b2 b1 b0 b).race.previousState = b.race.state
    ∧ (rc0Setup b3 b2 b1 b0 b).race.falseStartEnabled
        = decide (readModeNibble b3 b2 b1 b0 > 7)
    ∧ (rc0Setup b3 b2 b1 b0 b).lanes
        = b.lanes.map (fun l => Lane.reset (Lane.powerOff l))
    ∧ (rc0Setup b3 b2 b1 b0 b).ledPowerAll = false
    ∧ (∀ l ∈ (rc0Setup b3 b2 b1 b0 b).lanes,
        l.pin = false ∧ l.reported = true ∧ l.falseStart = false ∧ l.count = -1) := by
  have hFrom : b.race.fromState RaceState.FINISHED = true := by
    simp [Race.fromState, hPrev]
  have hstate : ∀ (m : Nat) (rr : Race),
      (rr.initFalseStart m).state = rr.state
      ∧ (rr.initFalseStart m).previousState = rr.previousState := by
    intro m rr
    simp only [Race.initFalseStart]
    split <;> simp
  have henab : ∀ (m : Nat) (rr : Race),
      (rr.initFalseStart m).falseStartEnabled = decide (m > 7) := by
    intro m rr
    simp only [Race.initFalseStart]
    split <;> rfl
  simp only [rc0Setup, hFrom, if_true, FalseStart.init, setPowerOff]
  refine ⟨(hstate _ _).1, (hstate _ _).2, henab _ _, ?_, by trivial, ?_⟩
  · simp only [List.map_map]
    rfl
  · intro l hl
    simp only [List.map_map, List.mem_map] at hl
    obtain ⟨x, _, hx⟩ := hl
    rw [← hx]
    simp [Lane.reset, Function.comp]

/-- C4 witness: a two-lane board whose race just finished (previousState
    FINISHED at boot) is powered down, re-initialised and reset by RC0. -/
theorem c4_rc0_setup_witness :
    ({ race := Race.new, lanes := [Lane.new 1, Lane.new 2],
       ledPowerAll := true, ledGO := true, ledSTOP := false,
       sf1 := false, sf2 := false, sf3 := false, sf4 := false,
       sf5 := false } : Board).race.previousState = RaceState.FINISHED
    ∧ (rc0Setup false false true true
        ({ race := Race.new, lanes := [Lane.new 1, Lane.new 2],
           ledPowerAll := true, ledGO := true, ledSTOP := false,
           sf1 := false, sf2 := false, sf3 := false, sf4 := false,
           sf5 := false })).race.state = RaceState.INIT :=
  ⟨rfl,
    (c4_rc0_setup false false true true
      ({ race := Race.new, lanes := [Lane.new 1, Lane.new 2],
         ledPowerAll := true, ledGO := true, ledSTOP := false,
         sf1 := false, sf2 := false, sf3 := false, sf4 := false,
         sf5 := false }) rfl).1⟩
